import Mathlib

/-!
Verification development for the Lorewalker Cho trivia bot
(`cho_client.py`).  The client code under `src/cho_client.py` is embedded
as pure Lean functions: each coroutine body becomes a function from the
relevant state to the successor state together with the list of outbound
channel sends it performs; a Python exception is represented by an
explicit error value (`PyErr`), and the attribute mutations that happen
before the exception is raised are kept in the returned state, matching
CPython semantics where object mutation persists across a raise.

The repository modules `game_state.py` (class `GameState`) and `cho.py`
(helpers `is_command`, `is_message_from_trivia_channel`) are not part of
the provided sources, so those definitions are modelled from the spec
(sections 3, 4.1 and 4.4) and are marked as such in their doc comments.
-/

abbrev UserId := Nat
abbrev GuildId := Nat

instance {ε : Type u} {α : Type v} [DecidableEq ε] [DecidableEq α] :
    DecidableEq (Except ε α) :=
  fun a b =>
    match a, b with
    | Except.ok x, Except.ok y =>
      if h : x = y then isTrue (by rw [h])
      else isFalse (by intro hc; cases hc; exact h rfl)
    | Except.error x, Except.error y =>
      if h : x = y then isTrue (by rw [h])
      else isFalse (by intro hc; cases hc; exact h rfl)
    | Except.ok _, Except.error _ => isFalse (by intro hc; cases hc)
    | Except.error _, Except.ok _ => isFalse (by intro hc; cases hc)

/-- Modelled from the spec (section 3, QuestionRecord): prompt text plus an
ordered sequence of accepted answers whose first element is the canonical
display answer.  Field names follow the dictionary keys the client uses
(`question["text"]`, `question["answers"]`). -/
structure Question where
  text : String
  answers : List String
deriving DecidableEq

/-- Modelled from the spec (section 3, SessionState / `game_state.GameState`,
whose module is not among the provided sources): current question index,
the answer-window flag (`waiting` in the client code, `acceptingAnswers`
in the spec), the lazily populated per-participant score list, and the
running total of correct answers used for the window-expiry snapshot
(`correct_answers_total` in the client code, `lastCorrectCount` mechanism
in the spec). -/
structure GameState where
  questions : List Question
  question_index : Nat
  waiting : Bool
  scores : List (UserId × Nat)
  correct_answers_total : Nat
deriving DecidableEq

/-- Modelled from the spec (section 4.1 `isComplete`):
`questionIndex >= len(questions)`. -/
def GameState.complete (g : GameState) : Bool :=
  decide (g.questions.length ≤ g.question_index)

/-- Modelled from the spec (section 4.1 `currentQuestion`): the question at
`questionIndex`, or none once the session is complete. -/
def GameState.get_question (g : GameState) : Option Question :=
  g.questions.get? g.question_index

/-- Python `str.lower` on the character list of a string. -/
def pyLower (s : String) : String :=
  String.mk (s.data.map Char.toLower)

/-- Python `str.strip`: remove leading and trailing whitespace. -/
def pyStrip (s : String) : String :=
  String.mk (((s.data.dropWhile Char.isWhitespace).reverse.dropWhile
    Char.isWhitespace).reverse)

/-- Modelled from the spec (section 4.1 `isCorrect`): candidates are trimmed
of surrounding whitespace and compared case-insensitively. -/
def normalize_answer (s : String) : String := pyLower (pyStrip s)

/-- Modelled from the spec (section 4.1 `isCorrect`): the normalized
candidate must exactly match one of the current question accepted
answers; with no current question nothing matches. -/
def GameState.check_answer (g : GameState) (text : String) : Bool :=
  match g.get_question with
  | none => false
  | some q => q.answers.any (fun a => normalize_answer a == normalize_answer text)

/-- One step of the lazy score update of the spec (section 3 `scores`):
increment the tally of `uid`, creating the entry on first credit. -/
def bumpScores : List (UserId × Nat) → UserId → List (UserId × Nat)
  | [], uid => [(uid, 1)]
  | (k, v) :: t, uid =>
      if k = uid then (k, v + 1) :: t else (k, v) :: bumpScores t uid

/-- Modelled from the spec (section 4.1 `recordCorrect`): increment the
participant score by one and the total correct-answer count by one. -/
def GameState.bump_score (g : GameState) (uid : UserId) : GameState :=
  { g with
      scores := bumpScores g.scores uid
      correct_answers_total := g.correct_answers_total + 1 }

/-- Modelled from the spec (section 4.1 `advance`): increment
`questionIndex` by one, with a no-op guard once complete. -/
def GameState.step (g : GameState) : GameState :=
  if g.complete then g else { g with question_index := g.question_index + 1 }

/-- Modelled from the spec (section 4.3 `tryStart`): a fresh session starts
at question index 0 with the answer window closed and no scores. -/
def GameState.new (qs : List Question) : GameState :=
  ⟨qs, 0, false, [], 0⟩

example : (GameState.new [⟨"Q1", ["A1"]⟩]).check_answer " a1 " = true := by decide
example : (GameState.new [⟨"Q1", ["A1"]⟩]).check_answer "Thral" = false := by decide

/-- A single quote character, used to spell the contractions occurring in
the literal message strings of `cho_client.py`. -/
def apos : String := String.mk [Char.ofNat 39]

/-- The mutable client state of `ChoClient.__init__` that the claims are
about: the `active_games` dictionary mapping a guild id to its
`GameState`, embedded as an association list.  (`guild_configs` is never
read or written by any code path under verification and is omitted.) -/
structure ChoState where
  active_games : List (GuildId × GameState)
deriving DecidableEq

/-- An inbound Discord message as the client reads it: author id, whether
the author is the bot itself, the guild id (none for a direct message),
whether it originates from the trivia channel, and its text content. -/
structure Message where
  author : UserId
  author_is_bot : Bool
  guild : Option GuildId
  channel_is_trivia : Bool
  content : String
deriving DecidableEq

/-- The hard-coded command marker of `on_message` line 76
(`TODO: Get prefix from the configuration`). -/
def default_marker : String := "!"

/-- Modelled from the spec (section 4.4, module `cho.py` is not among the
provided sources): a message is a command when its text matches the
per-guild command marker, i.e. starts with it. -/
def is_command (m : Message) (marker : String) : Bool :=
  m.content.data.take marker.data.length == marker.data

/-- Modelled from the spec (section 4.4, module `cho.py` is not among the
provided sources): whether the message originates from the configured
trivia channel of its guild. -/
def is_message_from_trivia_channel (m : Message) : Bool :=
  m.channel_is_trivia

/-- How `on_message` disposes of a message: reply to a direct message with
the fixed advisory, dispatch to `handle_command`, forward to
`process_answer`, or fall through with no action. -/
inductive Route where
  | dm_advisory
  | command
  | answer
  | no_action
deriving DecidableEq

/-- Result of the `on_message` body itself: the client state, the sends it
performs directly, and where it dispatched the message. -/
structure RouteResult where
  state : ChoState
  sends : List String
  route : Route
deriving DecidableEq

/-- The fixed advisory sent for direct messages (`on_message` lines
68-72). -/
def dm_advisory_text : String :=
  "Oh hello there, I don" ++ apos ++ "t currently do private trivia " ++
  "sessions. If you want to start a game, call for me in a " ++
  "Discord server."

/-- `ChoClient.on_message` (lines 55-82): reject direct messages with the
fixed advisory; otherwise dispatch commands to `handle_command`, and
forward non-command messages to `process_answer` exactly when the guild
has an entry in `active_games` and the message comes from the trivia
channel.  The body itself never writes `active_games`; the dispatched
handlers are separate functions below.  No branch inspects the author,
so bot-authored messages are routed like any other. -/
def on_message (s : ChoState) (m : Message) : RouteResult :=
  match m.guild with
  | none => ⟨s, [dm_advisory_text], Route.dm_advisory⟩
  | some gid =>
    let game_in_progress := (s.active_games.lookup gid).isSome
    if is_command m default_marker then ⟨s, [], Route.command⟩
    else if game_in_progress && is_message_from_trivia_channel m then
      ⟨s, [], Route.answer⟩
    else ⟨s, [], Route.no_action⟩

/-- Python-level failures of the embedded code paths. -/
inductive PyErr where
  | key_error
  | unbound_local_user_id
  | send_failure
deriving DecidableEq

/-- Replace the `GameState` stored under `gid`, the effect of mutating the
shared `GameState` object that `self.active_games[gid]` points to. -/
def set_game (s : ChoState) (gid : GuildId) (g : GameState) : ChoState :=
  ⟨s.active_games.map (fun p => if p.1 = gid then (gid, g) else p)⟩

/-- `ChoClient.process_answer` (lines 148-178): look up the guild entry in
`active_games` with no presence check (a missing key is a `KeyError`);
ignore the message when the window is closed; on a correct answer set
`waiting = False` on the shared game object and then evaluate
`active_game.bump_score(user_id)` — but `user_id` is a local variable
first assigned three lines later (line 168), so CPython raises
`UnboundLocalError` at that point: the window-closing mutation persists,
while the score bump, the credit announcement (lines 171-176) and the
next-cycle scheduling (lines 177-178) are never executed. -/
def process_answer (s : ChoState) (m : Message) :
    ChoState × Except PyErr (List String) :=
  match m.guild with
  | none => (s, Except.error PyErr.key_error)
  | some gid =>
    match s.active_games.lookup gid with
    | none => (s, Except.error PyErr.key_error)
    | some active_game =>
      if !active_game.waiting then (s, Except.ok [])
      else if active_game.check_answer m.content then
        (set_game s gid { active_game with waiting := false },
          Except.error PyErr.unbound_local_user_id)
      else (s, Except.ok [])

/-- "A game is already active" reply of `handle_start_command` lines
123-126. -/
def already_active_text : String :=
  "A game is already active in the trivia channel. If you " ++
  "want to participate please go in there."

/-- Start announcement of `handle_start_command` lines 133-135. -/
def starting_text : String :=
  "Okay I" ++ apos ++ "m starting a game. Don" ++ apos ++
  "t expect me to go easy"

/-- Result of `handle_start_command`: the client state, the sends, and
whether `start_game` was invoked. -/
structure StartResult where
  state : ChoState
  sends : List String
  started : Bool
deriving DecidableEq

/-- `ChoClient.handle_start_command` (lines 115-136): reply with the
already-active message when the guild has an entry in `active_games`;
otherwise announce the start and invoke `start_game`.  Neither branch
writes `active_games`. -/
def handle_start_command (s : ChoState) (gid : GuildId) : StartResult :=
  if (s.active_games.lookup gid).isSome then ⟨s, [already_active_text], false⟩
  else ⟨s, [starting_text], true⟩

/-- `ChoClient.start_game` (lines 138-146): after the short pacing wait it
constructs a fresh `GameState()` and hands it to `ask_question`.  It
never inserts that `GameState` into `self.active_games`; the client
state is returned unchanged alongside the fresh game. -/
def start_game (s : ChoState) (qs : List Question) : ChoState × GameState :=
  (s, GameState.new qs)

/-- Outcome of the part of `ChoClient.ask_question` before the long-wait
suspension (lines 188-197): either the game is complete and
`finish_game` takes over, or the question prompt is sent and the cycle
suspends holding the captured question and the
`last_correct_answers_total` snapshot, or the prompt send raised
(`send_failed`, window already flagged open), or the unreachable case of
an absent current question. -/
inductive AskBegin where
  | finish
  | asking (g : GameState) (q : Question) (snap : Nat) (sends : List String)
  | send_failed (g : GameState)
  | py_error
deriving DecidableEq

/-- `ChoClient.ask_question`, lines 188-197: check `complete`, capture the
current question and the `correct_answers_total` snapshot, open the
window (`waiting = True`), send the prompt, then suspend for the long
wait.  `send_ok` is the outcome of the awaited `channel.send`. -/
def ask_question_begin (send_ok : Bool) (g : GameState) : AskBegin :=
  if g.complete then AskBegin.finish
  else
    match g.get_question with
    | none => AskBegin.py_error
    | some q =>
      let snap := g.correct_answers_total
      let g1 := { g with waiting := true }
      if send_ok then AskBegin.asking g1 q snap [q.text]
      else AskBegin.send_failed g1

/-- The answer-reveal text of `ask_question` lines 205-209, which uses the
first accepted answer of the question captured before the wait. -/
def reveal_text (q : Question) : String :=
  "The correct answer was \"" ++ q.answers.headD "" ++ "\""

/-- Result of the post-wait part of `ask_question`: the game state, the
sends performed, whether a next question cycle actually runs afterwards,
and a raised error if the reveal send failed.  `continued` is always
false: on the reveal path the re-invocation of `ask_question` at line
211 is written without `await`, so it only creates a coroutine object
that CPython never schedules — the next cycle never begins; on the
failure path the propagating exception never reaches line 211 at all. -/
structure ResumeResult where
  game : GameState
  sends : List String
  continued : Bool
  failed : Option PyErr
deriving DecidableEq

/-- `ChoClient.ask_question`, lines 199-211 (resumption after the long
wait): if `correct_answers_total` still equals the snapshot, nobody
answered — close the window, advance with `step()`, send the reveal, and
sleep the short wait; the subsequent `self.ask_question(channel,
active_game)` at line 211 lacks `await`, so the coroutine it creates is
never executed and no next cycle starts (`continued := false`).  There
is no exception handler, so a failed reveal send propagates after the
close and advance have already happened, likewise reaching no next
cycle.  If the total moved, the answer path already advanced the game
and nothing more happens here. -/
def ask_question_resume (send_ok : Bool) (q : Question) (snap : Nat)
    (g : GameState) : ResumeResult :=
  if snap = g.correct_answers_total then
    let g2 := GameState.step { g with waiting := false }
    if send_ok then ⟨g2, [reveal_text q], false, none⟩
    else ⟨g2, [], false, some PyErr.send_failure⟩
  else ⟨g, [], false, none⟩

/-- The only send of `finish_game` (lines 220-222). -/
def finish_text : String :=
  "Alright we" ++ apos ++ "re out of questions. The winners are:"

/-- `ChoClient.finish_game` (lines 213-222): despite its docstring
("Outputs the scoreboard and announces the winner") it sends only the
fixed header line; it renders no score pairs and never removes the guild
entry from `active_games`. -/
def finish_game (s : ChoState) : ChoState × List String :=
  (s, [finish_text])

/-- The `waiting` flag does not enter `GameState.complete`. -/
theorem complete_set_waiting (g : GameState) (b : Bool) :
    GameState.complete { g with waiting := b } = g.complete := rfl

/-- Concrete two-question bank used by the evaluations below. -/
def q1 : Question := ⟨"Q1", ["A1"]⟩

def q2 : Question := ⟨"Q2", ["A2"]⟩

def qs1 : List Question := [q1, q2]

/-- A game on question 0 with the answer window open. -/
def g_open : GameState := ⟨qs1, 0, true, [], 0⟩

/-- The same game with the window closed and nothing scored. -/
def g_closed : GameState := ⟨qs1, 0, false, [], 0⟩

def s_open : ChoState := ⟨[(1, g_open)]⟩

def s_closed1 : ChoState := ⟨[(1, g_closed)]⟩

/-- C1: the claim states that among correct submissions arriving while the
window is open exactly one results in a score increment and in the window
closing, the rest being ignored.  On the code, the first correct
submission does close the window (and only once: the second submission is
ignored exactly as claimed), but it produces zero score increments, not
one: `bump_score(user_id)` evaluates the local `user_id` before its
assignment three lines later, raising `UnboundLocalError`.  This
evaluation exhibits that behaviour: user 7 answers "a1" correctly, the
stored game ends with `waiting = false` and empty `scores`, and the
handler raises; a second correct submission from user 8 is then ignored
with no further change. -/
theorem first_correct_closes_window_without_scoring :
    process_answer s_open ⟨7, false, some 1, true, "a1"⟩ =
      (s_closed1, Except.error PyErr.unbound_local_user_id) ∧
    process_answer s_closed1 ⟨8, false, some 1, true, " A1 "⟩ =
      (s_closed1, Except.ok []) := by decide

def s_open2 : ChoState := ⟨[(2, g_open)]⟩

/-- C2: the claim states that a correct submission increments the sender
score by one (creating the entry lazily) and that the credit announcement
names the sender.  On the code, user 9 submitting the correct answer "A1"
in guild 2 makes `process_answer` raise `UnboundLocalError` (the local
`user_id` is read at line 165 and assigned only at line 168), so no score
entry is ever created and no announcement is sent: the stored game still
has empty `scores` afterwards. -/
theorem correct_answer_creates_no_score_entry :
    (process_answer s_open2 ⟨9, false, some 2, true, "A1"⟩).2 =
      Except.error PyErr.unbound_local_user_id ∧
    ((process_answer s_open2 ⟨9, false, some 2, true, "A1"⟩).1.active_games.lookup
      2).map GameState.scores = some [] := by decide

def s_open3 : ChoState := ⟨[(3, g_open)]⟩

/-- C3: the claim states that the announcement for a correct answer
contains the canonical answer text of the question just answered.  On the
code, no announcement is sent at all: the handler raises
`UnboundLocalError` (at `bump_score(user_id)`) before reaching the send;
and the send as written at lines 166-176 calls `step()` before
`get_question()`, so even with `user_id` repaired the formatted text
would use `answers[0]` of the *next* question.  This evaluation shows
that a correct submission for question 0 of guild 3 yields the raised
error, hence an empty list of sends. -/
theorem correct_answer_sends_no_announcement :
    (process_answer s_open3 ⟨10, false, some 3, true, " a1 "⟩).2 =
      Except.error PyErr.unbound_local_user_id := by decide

/-- C4: the claim states that a start for a guild without an active
session creates a fresh session and registers it under that guild, so a
second start fails with the already-active response.  On the code,
`start_game` never inserts the fresh `GameState` into `active_games`:
starting in guild 4 from an empty registry leaves the registry empty, and
an immediately repeated start request is again answered with the start
announcement and again invokes `start_game`, instead of the
already-active response. -/
theorem start_flow_never_registers_session :
    handle_start_command ⟨[]⟩ 4 = ⟨⟨[]⟩, [starting_text], true⟩ ∧
    (start_game ⟨[]⟩ qs1).1 = ⟨[]⟩ ∧
    handle_start_command (start_game ⟨[]⟩ qs1).1 4 =
      ⟨⟨[]⟩, [starting_text], true⟩ := by decide

/-- C5: the claim states that on a window expiry with no winner the
engine closes the window, announces the canonical answer of that
question exactly once, advances `question_index` by one, pauses for the
short wait, and restarts the cycle.  On the code, the no-winner
condition is indeed detected by comparing the total correct-answer
count to the snapshot, the window closes, the captured question has its
canonical answer revealed exactly once, the index advances by one and
the short wait elapses — but the cycle does not restart: the
re-invocation of `ask_question` at line 211 is missing `await`, so the
coroutine it creates is never scheduled and no further question is ever
asked.  This evaluation starts a cycle on a fresh non-complete game,
lets the window expire untouched, and shows the reveal and advance with
`continued = false`. -/
theorem no_winner_reveal_without_cycle_restart :
    ask_question_begin true g_closed = AskBegin.asking g_open q1 0 [q1.text] ∧
    ask_question_resume true q1 0 g_open =
      ⟨⟨qs1, 1, false, [], 0⟩, [reveal_text q1], false, none⟩ := by decide

/-- A completed game (index 2 of 2) with one point for user 7. -/
def g_done : GameState := ⟨qs1, 2, false, [(7, 1)], 1⟩

def s_done : ChoState := ⟨[(5, g_done)]⟩

/-- C6: the claim states that on entering a cycle with the session
complete, the leaderboard is announced as sorted (participant, count)
pairs and the session is removed from the registry.  On the code, the
cycle does hand the completed game to `finish_game`, but `finish_game`
sends only the fixed header line — no score pairs — and never writes
`active_games`, so after finalization the registry still contains guild
5 with its game. -/
theorem finish_sends_header_only_and_keeps_registry :
    ask_question_begin true g_done = AskBegin.finish ∧
    finish_game s_done = (s_done, [finish_text]) ∧
    s_done.active_games.lookup 5 = some g_done := by decide

/-- C7: an inbound event with no guild identifier (a direct message) is
answered with the fixed advisory text and `on_message` returns without
dispatching, leaving the client state — in particular the
`active_games` registry and every session in it — unchanged. -/
theorem dm_advisory_leaves_state_unchanged (s : ChoState) (m : Message)
    (h : m.guild = none) :
    on_message s m = ⟨s, [dm_advisory_text], Route.dm_advisory⟩ := by
  simp [on_message, h]

/-- Witness for C7: a concrete direct message against the empty registry. -/
theorem dm_advisory_leaves_state_unchanged_w :
    on_message ⟨[]⟩ ⟨2, false, none, false, "hi"⟩ =
      ⟨⟨[]⟩, [dm_advisory_text], Route.dm_advisory⟩ :=
  dm_advisory_leaves_state_unchanged ⟨[]⟩ ⟨2, false, none, false, "hi"⟩ rfl

def m_bot : Message := ⟨0, true, some 1, true, "!cho start"⟩

/-- C8 counterexample: the claim states that every message authored by the
bot itself is ignored — neither dispatched as a command nor forwarded as
an answer, with no response sent.  `on_message` contains no authorship
check at all: this bot-authored command message is dispatched to
`handle_command` like any user message. -/
theorem bot_authored_message_is_dispatched :
    m_bot.author_is_bot = true ∧
    (on_message ⟨[]⟩ m_bot).route = Route.command := by decide

/-- C8 amended: the message handler does not special-case messages
authored by the bot; its result is independent of the authorship flag,
so bot-authored messages are dispatched and forwarded under exactly the
same rules as any other message. -/
theorem on_message_ignores_authorship (s : ChoState) (m : Message) (b : Bool) :
    on_message s { m with author_is_bot := b } = on_message s m := by
  cases m
  rfl

/-- C9 counterexample: the claim states that a failed outbound send is
logged and the state machine continues, in particular that a failed
announcement does not prevent the next cycle from being scheduled.  With
the reveal send failing after a no-winner window on the concrete open
game, the raised `send_failure` propagates (there is no exception
handler to log and swallow it) and the next cycle is not scheduled:
`continued = false`. -/
theorem reveal_send_failure_stops_next_cycle :
    ask_question_resume false q1 0 g_open =
      ⟨⟨qs1, 1, false, [], 0⟩, [], false, some PyErr.send_failure⟩ := by decide

/-- C9 amended: when the reveal send fails after a no-winner window, the
window closure and the `question_index` advance are not undone — both
happen before the send — but the failure propagates uncaught: nothing is
sent, no next cycle is scheduled, and the error escapes the engine. -/
theorem send_failure_still_closes_and_advances (g : GameState) (q : Question)
    (hc : g.complete = false) :
    ask_question_resume false q g.correct_answers_total g =
      ⟨{ g with
          waiting := false
          question_index := g.question_index + 1 },
        [], false, some PyErr.send_failure⟩ := by
  simp [ask_question_resume, GameState.step, complete_set_waiting, hc]

/-- Witness for the amended C9 at the concrete open game. -/
theorem send_failure_still_closes_and_advances_w :
    ask_question_resume false q1 g_open.correct_answers_total g_open =
      ⟨{ g_open with
          waiting := false
          question_index := g_open.question_index + 1 },
        [], false, some PyErr.send_failure⟩ :=
  send_failure_still_closes_and_advances g_open q1 (by decide)

/-- C10: `process_answer` reads `active_games[guild.id]` without a
presence check, and that lookup cannot fail from dispatch: whenever
`on_message` routes a message to the answer path, the guild identifier
is already a key of `active_games` (the `game_in_progress` test), so the
lookup succeeds and `process_answer` never raises a `key_error`. -/
theorem answer_route_implies_lookup_success (s : ChoState) (m : Message)
    (h : (on_message s m).route = Route.answer) :
    (∃ gid g, m.guild = some gid ∧ s.active_games.lookup gid = some g) ∧
    (process_answer s m).2 ≠ Except.error PyErr.key_error := by
  cases hg : m.guild with
  | none => simp [on_message, hg] at h
  | some gid =>
    simp only [on_message, hg] at h
    by_cases hcm : is_command m default_marker = true
    · simp [hcm] at h
    · simp only [hcm, if_false, Bool.false_eq_true, if_neg] at h
      by_cases hl : ((s.active_games.lookup gid).isSome &&
          is_message_from_trivia_channel m) = true
      · have hs : (s.active_games.lookup gid).isSome = true :=
          (Bool.and_eq_true _ _).mp hl |>.left
        obtain ⟨g, hg2⟩ := Option.isSome_iff_exists.mp hs
        refine ⟨⟨gid, g, rfl, hg2⟩, ?_⟩
        simp only [process_answer, hg, hg2]
        split
        · simp
        · split <;> simp
      · simp [hl] at h

def m_plain : Message := ⟨7, false, some 1, true, "hello"⟩

/-- Witness for C10: a plain trivia-channel message for guild 1 while
guild 1 has a registered game. -/
theorem answer_route_implies_lookup_success_w :
    (∃ gid g, m_plain.guild = some gid ∧
      s_open.active_games.lookup gid = some g) ∧
    (process_answer s_open m_plain).2 ≠ Except.error PyErr.key_error :=
  answer_route_implies_lookup_success s_open m_plain (by decide)
